import Mathlib

/-!
Shallow embedding of `src/static/app.js`, the browser-side client of the
image-stamp service.  DOM writes and asynchronous effects are modelled as
explicit state passing and event traces; an HTTP exchange is modelled by the
response the `fetch` resolves with (or a network failure), since the client
code branches only on those.
-/

/-- A `fetch` Response as the client reads it: `ok` (2xx), the body text
(`res.text()`), the status phrase (`res.statusText`) and the value of the
`content-type` header (after the code's `|| ''`, absent becomes `""`). -/
structure HttpResponse where
  ok : Bool
  bodyText : String
  statusText : String
  contentType : String
  deriving Repr, DecidableEq

/-- Outcome of the `fetch` call itself: either a response arrived, or the
network failed and `fetch` rejected with some error message. -/
inductive FetchOutcome where
  | response (r : HttpResponse)
  | networkFailure (msg : String)
  deriving Repr, DecidableEq

/-- What `api` resolves with on a 2xx response: the parsed JSON value when the
content type declares JSON (`return res.json()`), otherwise the raw response
(`return res; // for blobs/streams`).  Both constructors keep the response so
later code can be stated about it. -/
inductive ApiResult where
  | json (r : HttpResponse)
  | raw (r : HttpResponse)
  deriving Repr, DecidableEq

/-- Does `hay` contain `needle` as a contiguous run (JS `String.includes`)? -/
def charsContain (needle hay : List Char) : Bool :=
  match hay with
  | [] => needle.isEmpty
  | _ :: rest => needle.isPrefixOf hay || charsContain needle rest

/-- Model of `ct.includes('application/json')`: substring containment. -/
def declaresJson (ct : String) : Bool :=
  charsContain "application/json".toList ct.toList

/-- JS `String.prototype.trim()`: remove whitespace from both ends.  Written
over the character list so that it reduces by computation. -/
def jsTrim (s : String) : String :=
  ⟨((s.data.dropWhile Char.isWhitespace).reverse.dropWhile
      Char.isWhitespace).reverse⟩

/-- Model of `async function api(url, opts)` applied to the response the `fetch`
resolved with: on `!res.ok` it throws `new Error(txt || res.statusText)`
(the body text, or the status phrase when the body text is the empty string,
which is falsy); on ok it returns parsed JSON when the content type includes
`application/json`, else the raw response. -/
def api (r : HttpResponse) : Except String ApiResult :=
  if r.ok = false then
    .error (if r.bodyText = "" then r.statusText else r.bodyText)
  else if declaresJson r.contentType then
    .ok (.json r)
  else
    .ok (.raw r)

/-- A call through `api` including the possibility that `fetch` itself
rejects (network failure): the rejection propagates unchanged. -/
def apiCall (o : FetchOutcome) : Except String ApiResult :=
  match o with
  | .networkFailure m => .error m
  | .response r => api r

/-- The `{credits, credit_cost_gbp}` record that `/auth/status` returns as
JSON, as `refreshStatus` reads it; `none` models the field being absent
(`undefined`/`null`, the cases the JS `??` operator catches), `some s` the
field's display value. -/
structure StatusData where
  credits : Option String
  credit_cost_gbp : Option String
  deriving Repr, DecidableEq

/-- The two status DOM cells `refreshStatus` writes: `creditsEl.textContent`
and `priceEl.textContent`. -/
structure Display where
  credits : String
  price : String
  deriving Repr, DecidableEq

/-- Model of `async function refreshStatus()` as a transformer of the display state.
`parseJson` decodes a JSON body text into the status record (the work of
`res.json()`).  Success through the JSON branch writes `data.credits ?? '?'`
and `data.credit_cost_gbp ?? '20'`; success through the raw branch reads the
fields off a `Response` object, where both are `undefined`; any thrown error
is caught and only `creditsEl.textContent = '?'` runs.  The second component
is the toast the call raises: `refreshStatus` never raises one. -/
def refreshStatus (parseJson : String → StatusData) (o : FetchOutcome)
    (d : Display) : Display × Option String :=
  match apiCall o with
  | .error _ => ({ d with credits := "?" }, none)
  | .ok (.json r) =>
      let data := parseJson r.bodyText
      ({ credits := data.credits.getD "?",
         price := data.credit_cost_gbp.getD "20" }, none)
  | .ok (.raw _) =>
      ({ credits := "?", price := "20" }, none)

/-- Model of `topupBtn.onclick` given the outcome of `POST /auth/topup_demo`: the toast
shown `(message, ok-flag)` and whether `refreshStatus()` is invoked
afterwards.  Any caught error is replaced by the fixed message. -/
def topupClick (o : FetchOutcome) : (String × Bool) × Bool :=
  match apiCall o with
  | .ok _ => (("Added 5 demo credits", true), true)
  | .error _ => (("Demo top-up not enabled", false), false)

/-- A file handle as the client reads it: `f.name` and `f.size` in bytes. -/
structure JsFile where
  name : String
  size : Nat
  deriving Repr, DecidableEq

/-- Model of `Math.round(f.size/1024)` for a natural byte count: `size/1024` is exact
in double precision (power-of-two denominator) and `Math.round` is
floor(x + 1/2), hence `(size + 512) / 1024` in integer arithmetic. -/
def roundKB (size : Nat) : Nat :=
  (size + 512) / 1024

/-- Model of `function renderFiles(list)` as a transformer of `fileList.textContent`:
an empty (or missing) list writes the empty string, otherwise the
`'  •  '`-join of one `` `${f.name} (${Math.round(f.size/1024)} KB)` `` entry
per file.  The previous text is overwritten unconditionally. -/
def renderFiles (list : List JsFile) (_oldText : String) : String :=
  if list.isEmpty then ""
  else
    String.intercalate "  •  "
      (list.map fun f => f.name ++ " (" ++ toString (roundKB f.size) ++ " KB)")

/-- The four Stamp Parameter form values as read from the inputs
(`dateEl.value`, `startEl.value`, `endEl.value`, `cropEl.value`), untrimmed. -/
structure StampParams where
  date : String
  start_time : String
  end_time : String
  crop_height : String
  deriving Repr, DecidableEq

/-- One value in the multipart `FormData`: a file part or a string field. -/
inductive FormValue where
  | file (f : JsFile)
  | str (s : String)
  deriving Repr, DecidableEq

/-- The `FormData` built by `stampBtn.onclick`: `fd.append('files', f, f.name)`
for each file in order (the explicit filename equals the file's own name),
then the four scalar fields, each `.value.trim()`. -/
def buildFormData (files : List JsFile) (p : StampParams) :
    List (String × FormValue) :=
  files.map (fun f => ("files", FormValue.file f))
    ++ [("date", .str (jsTrim p.date)),
        ("start_time", .str (jsTrim p.start_time)),
        ("end_time", .str (jsTrim p.end_time)),
        ("crop_height", .str (jsTrim p.crop_height))]

/-- Is a `FormData` value a file part (as opposed to a string field)? -/
def FormValue.isFile : FormValue → Bool
  | .file _ => true
  | .str _ => false

/-- Observable effects of `stampBtn.onclick`, in program order. -/
inductive Ev where
  /-- Effect of `progressBox.classList.remove('hidden')` -/
  | showProgress
  /-- Effect of `progressMsg.textContent = msg` -/
  | setProgressMsg (msg : String)
  /-- the `fetch` issued by `api(url, {method:'POST', body: fd})` -/
  | networkCall (url : String) (body : List (String × FormValue))
  /-- Effect of `URL.createObjectURL(blob)` -/
  | createObjectURL
  /-- the synthetic anchor `a.click()` with `a.download = filename` -/
  | downloadClick (filename : String)
  /-- Effect of `URL.revokeObjectURL(url)` -/
  | revokeObjectURL
  /-- Effect of `progressBox.classList.add('hidden')` run immediately -/
  | hideProgress
  /-- Effect of `setTimeout(()=>progressBox.classList.add('hidden'), delayMs)` -/
  | scheduleHide (delayMs : Nat)
  /-- Effect of `toast(msg, ok)` -/
  | toastShown (msg : String) (ok : Bool)
  /-- Effect of invoking `refreshStatus()` -/
  | refreshStatusCall
  deriving Repr, DecidableEq

/-- Does an event issue a network request? -/
def Ev.isNetworkCall : Ev → Bool
  | .networkCall _ _ => true
  | _ => false

/-- Model of `stampBtn.onclick` as the trace of its observable effects, given the file
selection, the form parameters and the outcome of the `fetch`.  An empty
selection throws `'Please add images or a .zip'` before any other effect; the
catch block hides the progress box and toasts the error message.  On a raw
(non-JSON) 2xx response the blob is downloaded as `stamped_images.zip`; a 2xx
response that `api` parsed as JSON leaves `res` a plain value on which
`res.blob()` is a TypeError, which the same catch block handles. -/
def stampClick (files : List JsFile) (p : StampParams) (o : FetchOutcome) :
    List Ev :=
  if files.isEmpty then
    [.hideProgress, .toastShown "Please add images or a .zip" false]
  else
    let fd := buildFormData files p
    [Ev.showProgress, Ev.setProgressMsg "Processing…",
     Ev.networkCall "/api/stamp" fd] ++
    match apiCall o with
    | .error m => [.hideProgress, .toastShown m false]
    | .ok (.json _) =>
        [.hideProgress, .toastShown "res.blob is not a function" false]
    | .ok (.raw _) =>
        [.createObjectURL, .downloadClick "stamped_images.zip",
         .revokeObjectURL, .setProgressMsg "Done", .scheduleHide 500,
         .refreshStatusCall]

/-- The JSON body `{email, password}` of `/auth/login` and `/auth/signup`:
`JSON.stringify` is injective on this record, so the record itself stands for
the body. -/
structure AuthBody where
  email : String
  password : String
  deriving Repr, DecidableEq

/-- The body built by `loginBtn.onclick`:
`{email: email.value.trim(), password: password.value}`. -/
def loginRequestBody (email password : String) : AuthBody :=
  { email := jsTrim email, password := password }

/-- The body built by `signupBtn.onclick`: same construction as login. -/
def signupRequestBody (email password : String) : AuthBody :=
  { email := jsTrim email, password := password }

/-! ## Theorems -/

/-- Claim C1: for every parameter set and every network outcome, invoking the
stamp submission with an empty file selection produces only the catch-block
effects — the progress box is hidden and the local validation toast
"Please add images or a .zip" is shown — and the trace contains no network
call to `/api/stamp` (or anywhere else). -/
theorem stampClick_empty_selection (p : StampParams) (o : FetchOutcome) :
    stampClick [] p o =
      [.hideProgress, .toastShown "Please add images or a .zip" false] ∧
    ∀ e ∈ stampClick [] p o, e.isNetworkCall = false := by
  refine ⟨rfl, ?_⟩
  intro e he
  simp only [stampClick, List.isEmpty_nil, if_true, List.mem_cons,
    List.mem_singleton, List.not_mem_nil, or_false] at he
  rcases he with h | h <;> subst h <;> rfl

/-- Claim C4: a non-2xx response through the shared `api` helper becomes a
failure whose message is the response body text, or the status phrase when
the body text is empty. -/
theorem api_non2xx_error_message (r : HttpResponse) (h : r.ok = false) :
    (r.bodyText ≠ "" → api r = .error r.bodyText) ∧
    (r.bodyText = "" → api r = .error r.statusText) := by
  constructor <;> intro hb <;> simp [api, h, hb]

/-- Witness for `api_non2xx_error_message` at HTTP 402 with body
"Insufficient credits" and at an empty-bodied 402. -/
theorem api_non2xx_error_message_witness :
    api ⟨false, "Insufficient credits", "Payment Required", "text/plain"⟩ =
      .error "Insufficient credits" ∧
    api ⟨false, "", "Payment Required", "text/plain"⟩ =
      .error "Payment Required" :=
  ⟨(api_non2xx_error_message ⟨false, "Insufficient credits",
      "Payment Required", "text/plain"⟩ rfl).1 (by decide),
   (api_non2xx_error_message ⟨false, "", "Payment Required",
      "text/plain"⟩ rfl).2 rfl⟩

/-- Claim C5: whenever the demo top-up call fails — whatever error message the
failure carries — the toast shown is exactly ("Demo top-up not enabled",
not-ok), independent of the message, and no status refresh follows. -/
theorem topup_failure_fixed_notice (o : FetchOutcome) (m : String)
    (h : apiCall o = .error m) :
    (topupClick o).1 = ("Demo top-up not enabled", false) ∧
    (topupClick o).2 = false := by
  simp [topupClick, h]

/-- Witness for `topup_failure_fixed_notice`: a network failure whose detail
"ECONNREFUSED" is suppressed. -/
theorem topup_failure_fixed_notice_witness :
    (topupClick (.networkFailure "ECONNREFUSED")).1 =
      ("Demo top-up not enabled", false) ∧
    (topupClick (.networkFailure "ECONNREFUSED")).2 = false :=
  topup_failure_fixed_notice (.networkFailure "ECONNREFUSED") "ECONNREFUSED" rfl

/-- Claim C6: whenever the status query fails (network failure or non-2xx
response), the displayed credit value becomes the placeholder "?" and no
toast is raised. -/
theorem refreshStatus_failure_placeholder (parseJson : String → StatusData)
    (o : FetchOutcome) (d : Display) (m : String) (h : apiCall o = .error m) :
    (refreshStatus parseJson o d).1.credits = "?" ∧
    (refreshStatus parseJson o d).2 = none := by
  simp [refreshStatus, h]

/-- Witness for `refreshStatus_failure_placeholder`: an unreachable server. -/
theorem refreshStatus_failure_placeholder_witness :
    (refreshStatus (fun _ => ⟨none, none⟩) (.networkFailure "offline")
        ⟨"3", "20"⟩).1.credits = "?" ∧
    (refreshStatus (fun _ => ⟨none, none⟩) (.networkFailure "offline")
        ⟨"3", "20"⟩).2 = none :=
  refreshStatus_failure_placeholder (fun _ => ⟨none, none⟩)
    (.networkFailure "offline") ⟨"3", "20"⟩ "offline" rfl

/-- Claim C9: on a failing status query the display update changes only the
credits cell (to "?"); the price cell keeps whatever value it held before. -/
theorem refreshStatus_failure_price_unchanged (parseJson : String → StatusData)
    (o : FetchOutcome) (d : Display) (m : String) (h : apiCall o = .error m) :
    (refreshStatus parseJson o d).1 = { d with credits := "?" } := by
  simp [refreshStatus, h]

/-- Witness for `refreshStatus_failure_price_unchanged`: a 500 response; the
previously displayed price "20" survives. -/
theorem refreshStatus_failure_price_unchanged_witness :
    (refreshStatus (fun _ => ⟨none, none⟩)
        (.response ⟨false, "boom", "Internal Server Error", "text/plain"⟩)
        ⟨"3", "20"⟩).1 = ⟨"?", "20"⟩ :=
  refreshStatus_failure_price_unchanged (fun _ => ⟨none, none⟩)
    (.response ⟨false, "boom", "Internal Server Error", "text/plain"⟩)
    ⟨"3", "20"⟩ "boom" rfl

/-- Helper: every entry contributed by the file list passes the file filter
unchanged, so filtering the built body for file parts recovers the list. -/
theorem filter_file_entries (files : List JsFile) :
    ((files.map fun f => ("files", FormValue.file f)).filter
        fun e => e.2.isFile) =
      files.map fun f => ("files", FormValue.file f) := by
  induction files with
  | nil => rfl
  | cons f fs ih => simp [List.filter, FormValue.isFile, ih]

/-- Helper: no entry contributed by the file list is a string field. -/
theorem filter_file_entries_none (files : List JsFile) :
    ((files.map fun f => ("files", FormValue.file f)).filter
        fun e => !e.2.isFile) = [] := by
  induction files with
  | nil => rfl
  | cons f fs ih => simp [List.filter, FormValue.isFile, ih]

/-- Claim C2: for a non-empty selection the submission's multipart body holds
exactly one file part per selected file, all under the shared field name
"files" and in selection order, plus exactly the four scalar fields `date`,
`start_time`, `end_time`, `crop_height`, each trimmed of surrounding
whitespace; and this body is the one carried by the network call the click
issues. -/
theorem stampClick_formdata_shape (files : List JsFile) (p : StampParams)
    (o : FetchOutcome) (hne : files ≠ []) :
    ((buildFormData files p).filter fun e => e.2.isFile) =
      (files.map fun f => ("files", FormValue.file f)) ∧
    ((buildFormData files p).filter fun e => e.2.isFile).length =
      files.length ∧
    ((buildFormData files p).filter fun e => !e.2.isFile) =
      [("date", .str (jsTrim p.date)),
       ("start_time", .str (jsTrim p.start_time)),
       ("end_time", .str (jsTrim p.end_time)),
       ("crop_height", .str (jsTrim p.crop_height))] ∧
    Ev.networkCall "/api/stamp" (buildFormData files p) ∈
      stampClick files p o := by
  have h1 := filter_file_entries files
  have h2 := filter_file_entries_none files
  have hfiles : ((buildFormData files p).filter fun e => e.2.isFile) =
      files.map fun f => ("files", FormValue.file f) := by
    simp [buildFormData, List.filter_append, h1, FormValue.isFile]
  refine ⟨hfiles, ?_, ?_, ?_⟩
  · rw [hfiles]; simp
  · simp [buildFormData, List.filter_append, h2, FormValue.isFile]
  · obtain ⟨f, fs, rfl⟩ := List.exists_cons_of_ne_nil hne
    cases hc : apiCall o <;>
      simp [stampClick, hc]

/-- Witness for `stampClick_formdata_shape`: one file, whitespace-laden
parameters, network down. -/
theorem stampClick_formdata_shape_witness :
    ((buildFormData [⟨"a.png", 2048⟩]
        ⟨" 01/01/2024 ", "09:00:00 ", " 09:05:00", "100"⟩).filter
          fun e => e.2.isFile) =
      [("files", FormValue.file ⟨"a.png", 2048⟩)] ∧
    ((buildFormData [⟨"a.png", 2048⟩]
        ⟨" 01/01/2024 ", "09:00:00 ", " 09:05:00", "100"⟩).filter
          fun e => e.2.isFile).length = 1 ∧
    ((buildFormData [⟨"a.png", 2048⟩]
        ⟨" 01/01/2024 ", "09:00:00 ", " 09:05:00", "100"⟩).filter
          fun e => !e.2.isFile) =
      [("date", .str (jsTrim " 01/01/2024 ")),
       ("start_time", .str (jsTrim "09:00:00 ")),
       ("end_time", .str (jsTrim " 09:05:00")),
       ("crop_height", .str (jsTrim "100"))] ∧
    Ev.networkCall "/api/stamp"
        (buildFormData [⟨"a.png", 2048⟩]
          ⟨" 01/01/2024 ", "09:00:00 ", " 09:05:00", "100"⟩) ∈
      stampClick [⟨"a.png", 2048⟩]
        ⟨" 01/01/2024 ", "09:00:00 ", " 09:05:00", "100"⟩
        (.networkFailure "down") :=
  stampClick_formdata_shape [⟨"a.png", 2048⟩]
    ⟨" 01/01/2024 ", "09:00:00 ", " 09:05:00", "100"⟩
    (.networkFailure "down") (by decide)

/-- Counterexample to claim C3: a 2xx stamp response that declares the JSON
content type is NOT handled as binary — the shared helper returns the parsed
JSON value instead of the raw response, and the click's trace triggers no
download of `stamped_images.zip`. -/
theorem stampClick_json_content_type_counterexample :
    api ⟨true, "{}", "OK", "application/json"⟩ =
      .ok (.json ⟨true, "{}", "OK", "application/json"⟩) ∧
    Ev.downloadClick "stamped_images.zip" ∉
      stampClick [⟨"a.png", 2048⟩] ⟨"d", "s", "e", "c"⟩
        (.response ⟨true, "{}", "OK", "application/json"⟩) := by
  exact ⟨rfl, by decide⟩

/-- Claim C3 as amended: a 2xx response is handled as binary (raw response,
zip download triggered) exactly when its declared content type does not
include `application/json`; when it does, the shared helper's JSON branch
applies and the caller receives parsed JSON, not the raw body. -/
theorem stampClick_binary_iff_not_json (files : List JsFile) (p : StampParams)
    (r : HttpResponse) (hne : files ≠ []) (hok : r.ok = true) :
    (declaresJson r.contentType = false ↔
      Ev.downloadClick "stamped_images.zip" ∈
        stampClick files p (.response r)) ∧
    (declaresJson r.contentType = true → api r = .ok (.json r)) := by
  obtain ⟨f, fs, rfl⟩ := List.exists_cons_of_ne_nil hne
  cases hct : declaresJson r.contentType <;>
    simp [stampClick, apiCall, api, hok, hct]

/-- Witness for `stampClick_binary_iff_not_json` at a zip-typed 2xx
response. -/
theorem stampClick_binary_iff_not_json_witness :
    (declaresJson "application/zip" = false ↔
      Ev.downloadClick "stamped_images.zip" ∈
        stampClick [⟨"a.png", 2048⟩] ⟨"d", "s", "e", "c"⟩
          (.response ⟨true, "PK", "OK", "application/zip"⟩)) ∧
    (declaresJson "application/zip" = true →
      api ⟨true, "PK", "OK", "application/zip"⟩ =
        .ok (.json ⟨true, "PK", "OK", "application/zip"⟩)) :=
  stampClick_binary_iff_not_json [⟨"a.png", 2048⟩] ⟨"d", "s", "e", "c"⟩
    ⟨true, "PK", "OK", "application/zip"⟩ (by decide) rfl

/-- Claim C7: the file-summary rendering overwrites the previous text with a
value depending only on the list, so rendering twice equals rendering once;
an empty list renders as empty text; a non-empty list renders as the join of
one "name (size KB)" entry per file with the size rounded to the nearest
KB. -/
theorem renderFiles_idempotent (L : List JsFile) (t u : String) :
    renderFiles L (renderFiles L t) = renderFiles L t ∧
    renderFiles [] u = "" ∧
    (L ≠ [] → renderFiles L t =
      String.intercalate "  •  "
        (L.map fun f =>
          f.name ++ " (" ++ toString ((f.size + 512) / 1024) ++ " KB)")) := by
  refine ⟨rfl, rfl, fun h => ?_⟩
  obtain ⟨f, fs, rfl⟩ := List.exists_cons_of_ne_nil h
  simp [renderFiles, roundKB]

/-- Witness for `renderFiles_idempotent`: a 2048-byte `a.png` renders as
"a.png (2 KB)", and the empty list as empty text. -/
theorem renderFiles_idempotent_witness :
    renderFiles [⟨"a.png", 2048⟩] "" = "a.png (2 KB)" ∧
    renderFiles [] "old" = "" := by
  have h := renderFiles_idempotent [⟨"a.png", 2048⟩] "" "old"
  refine ⟨?_, h.2.1⟩
  rw [h.2.2 (by decide)]
  decide

/-- Claim C8: on a successful submission (non-empty selection, 2xx response
with a non-JSON content type) the effects happen in exactly this order: the
progress box is shown and its message set to "Processing…" before the network
call; after the response, the blob URL is created, the download is clicked
under the fixed name `stamped_images.zip`, the object URL is revoked, the
message becomes "Done", hiding is scheduled after 500 ms, and the status is
refreshed. -/
theorem stampClick_success_effect_order (files : List JsFile)
    (p : StampParams) (r : HttpResponse) (hne : files ≠ [])
    (hok : r.ok = true) (hct : declaresJson r.contentType = false) :
    stampClick files p (.response r) =
      [Ev.showProgress, Ev.setProgressMsg "Processing…",
       Ev.networkCall "/api/stamp" (buildFormData files p),
       Ev.createObjectURL, Ev.downloadClick "stamped_images.zip",
       Ev.revokeObjectURL, Ev.setProgressMsg "Done", Ev.scheduleHide 500,
       Ev.refreshStatusCall] := by
  obtain ⟨f, fs, rfl⟩ := List.exists_cons_of_ne_nil hne
  simp [stampClick, apiCall, api, hok, hct]

/-- Witness for `stampClick_success_effect_order`: the end-to-end scenario of
one 2048-byte `a.png` stamped with concrete parameters and a zip response. -/
theorem stampClick_success_effect_order_witness :
    stampClick [⟨"a.png", 2048⟩]
        ⟨"01/01/2024", "09:00:00", "09:05:00", "100"⟩
        (.response ⟨true, "PK", "OK", "application/zip"⟩) =
      [Ev.showProgress, Ev.setProgressMsg "Processing…",
       Ev.networkCall "/api/stamp"
         (buildFormData [⟨"a.png", 2048⟩]
           ⟨"01/01/2024", "09:00:00", "09:05:00", "100"⟩),
       Ev.createObjectURL, Ev.downloadClick "stamped_images.zip",
       Ev.revokeObjectURL, Ev.setProgressMsg "Done", Ev.scheduleHide 500,
       Ev.refreshStatusCall] :=
  stampClick_success_effect_order [⟨"a.png", 2048⟩]
    ⟨"01/01/2024", "09:00:00", "09:05:00", "100"⟩
    ⟨true, "PK", "OK", "application/zip"⟩ (by decide) rfl (by decide)

/-- Claim C10: login and signup both send the email trimmed and the password
verbatim; hence two passwords that differ only in surrounding whitespace
yield different request bodies. -/
theorem auth_body_trims_email_not_password (e p1 p2 : String)
    (hne : p1 ≠ p2) (_htrim : jsTrim p1 = jsTrim p2) :
    (loginRequestBody e p1).email = jsTrim e ∧
    (loginRequestBody e p1).password = p1 ∧
    (signupRequestBody e p1).email = jsTrim e ∧
    (signupRequestBody e p1).password = p1 ∧
    loginRequestBody e p1 ≠ loginRequestBody e p2 ∧
    signupRequestBody e p1 ≠ signupRequestBody e p2 := by
  refine ⟨rfl, rfl, rfl, rfl, ?_, ?_⟩ <;>
    exact fun hcontra => hne (congrArg AuthBody.password hcontra)

/-- Witness for `auth_body_trims_email_not_password`: "hunter2" versus
" hunter2" (same after trimming) produce different bodies. -/
theorem auth_body_trims_email_not_password_witness :
    (loginRequestBody "user@example.com" "hunter2").email =
      jsTrim "user@example.com" ∧
    (loginRequestBody "user@example.com" "hunter2").password = "hunter2" ∧
    (signupRequestBody "user@example.com" "hunter2").email =
      jsTrim "user@example.com" ∧
    (signupRequestBody "user@example.com" "hunter2").password = "hunter2" ∧
    loginRequestBody "user@example.com" "hunter2" ≠
      loginRequestBody "user@example.com" " hunter2" ∧
    signupRequestBody "user@example.com" "hunter2" ≠
      signupRequestBody "user@example.com" " hunter2" :=
  auth_body_trims_email_not_password "user@example.com" "hunter2" " hunter2"
    (by decide) (by decide)
